import Mathlib

/-!
Shallow embedding of `src/main.py` from the `tg-api-hitter` repository.

The embedding models, directly from the source:
* the module-level mutable globals `BASE_URL` (a single `Option String`,
  shared by all users) and `AWAITING_BASEURL` (a set of user ids),
  together with the handlers `baseurl_prompt`, `set_baseurl_input` and
  `stop_baseurl` (lines 202-225 of `main.py`);
* the download loop `download_video_with_progress` (lines 109-171):
  three attempts, a 3-second sleep between attempts, a Content-Length
  size guard, the chunked write loop with its throttled progress edits;
* the request handler `handle_message` (lines 227-304): API response
  validation, temp-file lifecycle, upload outcome handling and the
  deferred deletion scheduled by `schedule_delete` (lines 81-99).

External effects (HTTP responses, chunk arrival times, the values drawn
by `random.uniform(30, 35)`, upload outcomes, whether `os.remove`
raises) are supplied as explicit oracles.  Python floats (wall-clock
times and `random.uniform` draws) are modelled as elements of an
arbitrary linearly ordered commutative ring, so the theorems hold for
any such embedding of the float values (witnesses instantiate it at
`Int`); the float expression `int(downloaded / total_size * 100)` is
modelled as the exact truncated division `downloaded * 100 / total_size`.
-/

namespace TgApiHitter

/-- Python `str.strip()` on the message text (`main.py` line 211):
whitespace removed from both ends. -/
def pyStrip (s : String) : String :=
  String.mk (((s.data.dropWhile Char.isWhitespace).reverse.dropWhile Char.isWhitespace).reverse)

/-- Python `str.rstrip("/")` (`main.py` line 213): all trailing `/`
characters removed. -/
def rstripSlash (s : String) : String :=
  String.mk ((s.data.reverse.dropWhile (fun c => c = '/')).reverse)

/-- The module-level mutable state of `main.py` relevant to base-URL
configuration: the single global `BASE_URL` (line 56) and the global
set `AWAITING_BASEURL` of user ids (line 58), modelled as a
duplicate-free list. -/
structure BotState where
  BASE_URL : Option String
  AWAITING_BASEURL : List Nat
deriving DecidableEq, Repr

/-- Python `set.add`: insert if absent. -/
def setInsert (l : List Nat) (u : Nat) : List Nat :=
  if u ∈ l then l else u :: l

/-- Python `set.remove` (set semantics): drop the element. -/
def setRemove (l : List Nat) (u : Nat) : List Nat :=
  l.filter (fun x => x ≠ u)

/-- What a text-handling transition did, for routing assertions. -/
inductive Action where
  | promptBaseUrl
  | baseUrlSet (v : String)
  | baseUrlCleared
  | treatedAsLink (t : String)
deriving DecidableEq, Repr

/-- Handler `baseurl_prompt` (`main.py` lines 202-206): `/baseurl` adds the user
to `AWAITING_BASEURL` and prompts for input. -/
def baseurl_prompt (s : BotState) (uid : Nat) : BotState × Action :=
  ({ s with AWAITING_BASEURL := setInsert s.AWAITING_BASEURL uid }, .promptBaseUrl)

/-- Handler `stop_baseurl` (`main.py` lines 221-225): `/stop` clears the global
`BASE_URL`; it does not touch `AWAITING_BASEURL`. -/
def stop_baseurl (s : BotState) (uid : Nat) : BotState × Action :=
  ({ s with BASE_URL := none }, .baseUrlCleared)

/-- Handler `set_baseurl_input` (`main.py` lines 208-219): a non-command text
message.  If the sender is in `AWAITING_BASEURL`, the stripped text with
trailing slashes removed becomes the new global `BASE_URL` and the
sender leaves the awaiting set; otherwise the text is handed to
`handle_message` as a link. -/
def set_baseurl_input (s : BotState) (uid : Nat) (t : String) : BotState × Action :=
  let text := pyStrip t
  if uid ∈ s.AWAITING_BASEURL then
    ({ BASE_URL := some (rstripSlash text),
       AWAITING_BASEURL := setRemove s.AWAITING_BASEURL uid },
     .baseUrlSet (rstripSlash text))
  else
    (s, .treatedAsLink text)

/-- One inbound update, as classified by the registered handlers
(`main.py` lines 306-313): `/baseurl`, `/stop`, or non-command text. -/
inductive Event where
  | baseurlCmd (uid : Nat)
  | stopCmd (uid : Nat)
  | textMsg (uid : Nat) (t : String)
deriving DecidableEq, Repr

/-- Dispatch of one update to its handler. -/
def step (s : BotState) : Event → BotState × Action
  | .baseurlCmd uid => baseurl_prompt s uid
  | .stopCmd uid => stop_baseurl s uid
  | .textMsg uid t => set_baseurl_input s uid t

/-- The base URL `handle_message` reads for a given user (`main.py`
line 237): it reads the global `BASE_URL`, whoever the user is. -/
def readBaseUrl (s : BotState) (uid : Nat) : Option String :=
  s.BASE_URL

theorem mem_setInsert_self (l : List Nat) (u : Nat) : u ∈ setInsert l u := by
  unfold setInsert
  by_cases h : u ∈ l
  · simpa [h]
  · simp [h]

theorem not_mem_setRemove_self (l : List Nat) (u : Nat) : u ∉ setRemove l u := by
  simp [setRemove]

end TgApiHitter

namespace TgApiHitter

/-- Intermediate state for the C2 counterexample: user 2 has configured
base URL `http://b` starting from the initial empty state. -/
def c2_before : BotState :=
  (step ((step ⟨none, []⟩ (.baseurlCmd 2)).1) (.textMsg 2 "http://b")).1

/-- State after user 1 then configures base URL `http://a`. -/
def c2_after : BotState :=
  (step ((step c2_before (.baseurlCmd 1)).1) (.textMsg 1 "http://a")).1

/-- C2 counterexample: the base-URL configuration is NOT keyed by user
identity.  User 2 configures `http://b`; after user 1 runs `/baseurl`
and sends `http://a`, the base URL read on behalf of user 2 has changed
from `http://b` to `http://a`, because `BASE_URL` is a single global. -/
theorem C2_counterexample :
    readBaseUrl c2_before 2 = some "http://b"
    ∧ readBaseUrl c2_after 2 = some "http://a"
    ∧ readBaseUrl c2_after 2 ≠ readBaseUrl c2_before 2 :=
  ⟨rfl, rfl, by decide⟩

/-- C2 (amended): the base URL is one process-global value shared by
every user; only the awaiting flag is per-user.  After any user `a`
completes `/baseurl` followed by text `t`, every user `b` observes base
URL `rstripSlash (pyStrip t)`, and after any user runs `/stop`, every
user observes an unset base URL. -/
theorem C2_corrected (s : BotState) (a b : Nat) (t : String) :
    readBaseUrl ((step ((step s (.baseurlCmd a)).1) (.textMsg a t)).1) b
      = some (rstripSlash (pyStrip t))
    ∧ readBaseUrl ((step s (.stopCmd a)).1) b = none := by
  constructor
  · simp [step, baseurl_prompt, set_baseurl_input, readBaseUrl, mem_setInsert_self]
  · rfl

/-- C4: for every user and starting state, `/baseurl` followed by any
text `t` stores `t` stripped of surrounding whitespace and trailing
slashes as the configured base URL, reports that transition, and
removes the user from the awaiting set in the same transition. -/
theorem C4_baseurl_roundtrip (s : BotState) (uid : Nat) (t : String) :
    (step ((step s (.baseurlCmd uid)).1) (.textMsg uid t)).2
      = .baseUrlSet (rstripSlash (pyStrip t))
    ∧ (step ((step s (.baseurlCmd uid)).1) (.textMsg uid t)).1.BASE_URL
      = some (rstripSlash (pyStrip t))
    ∧ uid ∉ (step ((step s (.baseurlCmd uid)).1) (.textMsg uid t)).1.AWAITING_BASEURL := by
  refine ⟨?_, ?_, ?_⟩ <;>
    simp [step, baseurl_prompt, set_baseurl_input, mem_setInsert_self, setRemove]

/-- C9: `/stop` sent while the user is awaiting a base URL clears the
stored base URL but leaves the user in the awaiting set, so the user's
next text message is consumed as a new base URL (transition
`baseUrlSet`), not treated as a link submission. -/
theorem C9_stop_keeps_awaiting (s : BotState) (uid : Nat) (t : String)
    (h : uid ∈ s.AWAITING_BASEURL) :
    (step s (.stopCmd uid)).1.BASE_URL = none
    ∧ uid ∈ (step s (.stopCmd uid)).1.AWAITING_BASEURL
    ∧ (step ((step s (.stopCmd uid)).1) (.textMsg uid t)).2
      = .baseUrlSet (rstripSlash (pyStrip t))
    ∧ (step ((step s (.stopCmd uid)).1) (.textMsg uid t)).1.BASE_URL
      = some (rstripSlash (pyStrip t)) := by
  refine ⟨rfl, h, ?_, ?_⟩ <;> simp [step, stop_baseurl, set_baseurl_input, h]

/-- Witness for C9 at the concrete state where user 7 is awaiting with
base URL `u` configured and then sends `/stop` followed by the text
`" http://e// "`. -/
theorem C9_stop_keeps_awaiting_witness :
    (7 ∈ (⟨some "u", [7]⟩ : BotState).AWAITING_BASEURL)
    ∧ rstripSlash (pyStrip " http://e// ") = "http://e"
    ∧ ((step (⟨some "u", [7]⟩ : BotState) (.stopCmd 7)).1.BASE_URL = none
      ∧ 7 ∈ (step (⟨some "u", [7]⟩ : BotState) (.stopCmd 7)).1.AWAITING_BASEURL
      ∧ (step ((step (⟨some "u", [7]⟩ : BotState) (.stopCmd 7)).1)
          (.textMsg 7 " http://e// ")).2
        = .baseUrlSet (rstripSlash (pyStrip " http://e// "))
      ∧ (step ((step (⟨some "u", [7]⟩ : BotState) (.stopCmd 7)).1)
          (.textMsg 7 " http://e// ")).1.BASE_URL
        = some (rstripSlash (pyStrip " http://e// "))) :=
  ⟨by decide, by decide, C9_stop_keeps_awaiting _ 7 _ (by decide)⟩

end TgApiHitter

namespace TgApiHitter

/-- The size ceiling of `main.py` line 125: `1_990_000_000` bytes. -/
def SIZE_LIMIT : Nat := 1990000000

variable (τ : Type)

/-- One non-empty read from `r.content.iter_chunked(8192)` (`main.py`
line 132): its byte length, the loop-clock reading `loop.time()` when it
is processed, and the value `random.uniform(30, 35)` would return if the
throttle window fires on this chunk.  Wall-clock values (Python floats)
live in an arbitrary linearly ordered commutative ring `τ`. -/
structure Chunk where
  size : Nat
  now : τ
  u : τ
deriving DecidableEq, Repr

/-- One progress edit of the status message inside the download loop
(`main.py` lines 141-152): either a percentage (known total size) or a
cumulative byte count (unknown total size), with the loop time at which
the edit was made. -/
inductive Edit where
  | percent (p : Nat) (t : τ)
  | bytes (n : Nat) (t : τ)
deriving DecidableEq, Repr

/-- The per-attempt progress counters of `download_video_with_progress`
(`main.py` lines 113-115 and 130): bytes downloaded, the last percentage
edited into the status message (`-1` before any edit), the next loop
time at which an edit is allowed, and the edits made so far (most recent
first). -/
structure ProgState where
  downloaded : Nat
  last_percent_edit : Int
  next_edit_at : τ
  editsRev : List (Edit τ)
deriving DecidableEq, Repr

variable {τ} [LinearOrderedCommRing τ]

/-- The body of `async for chunk in r.content.iter_chunked(8192)`
(`main.py` lines 132-158): skip empty chunks, write the chunk and add
its length to `downloaded`, and if the throttle window has elapsed
(`now >= next_edit_at`) edit the status message — with the percentage
when the total size is known and it differs from the last edited
percentage, with the cumulative byte count when the total size is
unknown — then push the window forward by the fresh `uniform(30, 35)`
draw `c.u`.  The float `int(downloaded / total_size * 100)` is modelled
as truncated division `downloaded * 100 / total_size`.  (The
10%-boundary log writes on lines 154-158 touch no state used here and
are omitted.) -/
def stepChunk (total_size : Nat) (s : ProgState τ) (c : Chunk τ) : ProgState τ :=
  if c.size = 0 then s
  else if s.next_edit_at ≤ c.now then
    if 0 < total_size then
      if ((((s.downloaded + c.size) * 100 / total_size : Nat) : Int) ≠ s.last_percent_edit) then
        ⟨s.downloaded + c.size, (((s.downloaded + c.size) * 100 / total_size : Nat) : Int),
          c.now + c.u, .percent ((s.downloaded + c.size) * 100 / total_size) c.now :: s.editsRev⟩
      else
        ⟨s.downloaded + c.size, s.last_percent_edit, c.now + c.u, s.editsRev⟩
    else
      ⟨s.downloaded + c.size, s.last_percent_edit, c.now + c.u,
        .bytes (s.downloaded + c.size) c.now :: s.editsRev⟩
  else
    ⟨s.downloaded + c.size, s.last_percent_edit, s.next_edit_at, s.editsRev⟩

/-- Counters at the start of an attempt (`main.py` lines 113-114, 130):
`downloaded = 0`, `last_percent_edit = -1`, and the first edit allowed
at `loop.time() + random.uniform(30, 35)`. -/
def initProg (t0 u0 : τ) : ProgState τ :=
  ⟨0, -1, t0 + u0, []⟩

/-- The whole chunk loop of one attempt. -/
def runChunks (total_size : Nat) (s : ProgState τ) (cs : List (Chunk τ)) : ProgState τ :=
  cs.foldl (stepChunk total_size) s

variable (τ)

/-- What the network yields on one attempt whose GET succeeded: the
declared `Content-Length` (if any), the loop time at session start, the
initial `uniform(30, 35)` draw, the stream chunks, and an error raised
mid-stream after those chunks (if any). -/
structure OkResp where
  contentLength : Option Nat
  t0 : τ
  u0 : τ
  chunks : List (Chunk τ)
  streamErr : Option String
deriving DecidableEq, Repr

/-- What one attempt of the `for attempt in range(1, retries + 1)` loop
sees from the network: either `raise_for_status`/transport failure with
a message, or a successful GET. -/
inductive AttemptResp where
  | fail (msg : String)
  | good (r : OkResp τ)
deriving DecidableEq, Repr

/-- Observable result of one attempt body (`main.py` lines 116-162):
bytes written to the destination file, whether the file was opened at
all, the progress edits in order, whether the `❌ File too large` edit
was made (line 126), whether the `⏳ Download complete! 100%` edit was
made (line 160), and the attempt's outcome. -/
structure AttemptResult where
  bytesWritten : Nat
  fileOpened : Bool
  edits : List (Edit τ)
  tooLargeEditShown : Bool
  completeEditShown : Bool
  outcome : Except String Unit
deriving Repr

variable {τ}

/-- One attempt body: on a failed GET the exception propagates with no
file write; on a successful GET, `total_size` is the declared
Content-Length or `0`, and if `total_size and total_size >
1_990_000_000` the too-large edit is made and `RuntimeError("File too
large for Telegram")` is raised *before the destination file is opened*
(`main.py` lines 122-127; the file is opened on line 131).  Otherwise
the chunk loop runs; a mid-stream error propagates after the chunks
already written, else the attempt completes. -/
def processAttempt : AttemptResp τ → AttemptResult τ
  | .fail msg => ⟨0, false, [], false, false, .error msg⟩
  | .good r =>
    let total_size := r.contentLength.getD 0
    if total_size ≠ 0 ∧ SIZE_LIMIT < total_size then
      ⟨0, false, [], true, false, .error "File too large for Telegram"⟩
    else
      let fin := runChunks total_size (initProg r.t0 r.u0) r.chunks
      match r.streamErr with
      | some e => ⟨fin.downloaded, true, fin.editsRev.reverse, false, false, .error e⟩
      | none => ⟨fin.downloaded, true, fin.editsRev.reverse, false, true, .ok ()⟩

variable (τ)

/-- Observable result of the whole retry loop: the final outcome, how
many attempts ran, the `asyncio.sleep(3)` calls made between attempts
(`main.py` line 166), the final `❌ Video download error` edit on
exhaustion (line 169), and each attempt's own result. -/
structure DlResult where
  result : Except String Unit
  attemptsUsed : Nat
  sleeps : List Nat
  finalErrorEdit : Option String
  attempts : List (AttemptResult τ)
deriving Repr

variable {τ}

/-- The `for attempt in range(1, retries + 1)` loop (`main.py`
lines 112-171): run the attempt body; on success return; on an
exception, if attempts remain sleep 3 seconds and retry, else edit the
status message with the cause and re-raise.  Note that *every*
exception of the attempt body is caught by the bare `except Exception`
on line 163 — including the too-large `RuntimeError` — so every failure
kind is retried alike. -/
def retryLoop (r : AttemptResp τ) : List (AttemptResp τ) → DlResult τ
  | [] =>
    match (processAttempt r).outcome with
    | .ok _ => ⟨.ok (), 1, [], none, [processAttempt r]⟩
    | .error e =>
      ⟨.error e, 1, [], some ("❌ Video download error: " ++ e), [processAttempt r]⟩
  | r2 :: rest2 =>
    match (processAttempt r).outcome with
    | .ok _ => ⟨.ok (), 1, [], none, [processAttempt r]⟩
    | .error _ =>
      let d := retryLoop r2 rest2
      ⟨d.result, d.attemptsUsed + 1, 3 :: d.sleeps, d.finalErrorEdit,
        processAttempt r :: d.attempts⟩

/-- Function `download_video_with_progress` with `retries = 3` (`main.py`
line 111): the three per-attempt network oracles feed the retry loop. -/
def download_video_with_progress (r1 r2 r3 : AttemptResp τ) : DlResult τ :=
  retryLoop r1 [r2, r3]

end TgApiHitter

namespace TgApiHitter

variable {τ : Type} [LinearOrderedCommRing τ]

/-- The attempt result produced by the Content-Length guard. -/
def tooLargeResult : AttemptResult τ :=
  ⟨0, false, [], true, false, .error "File too large for Telegram"⟩

theorem processAttempt_tooLarge (r : OkResp τ) (h : SIZE_LIMIT < r.contentLength.getD 0) :
    processAttempt (.good r) = tooLargeResult := by
  have hne : r.contentLength.getD 0 ≠ 0 := by
    have hpos : 0 < SIZE_LIMIT := by unfold SIZE_LIMIT; omega
    omega
  simp only [processAttempt, tooLargeResult]
  rw [if_pos ⟨hne, h⟩]

theorem retryLoop_ok (r : AttemptResp τ) (rest : List (AttemptResp τ)) (u : Unit)
    (h : (processAttempt r).outcome = .ok u) :
    retryLoop r rest = ⟨.ok (), 1, [], none, [processAttempt r]⟩ := by
  cases rest <;> simp only [retryLoop] <;> rw [h]

theorem retryLoop_err_nil (r : AttemptResp τ) (e : String)
    (h : (processAttempt r).outcome = .error e) :
    retryLoop r [] = ⟨.error e, 1, [], some ("❌ Video download error: " ++ e),
      [processAttempt r]⟩ := by
  simp only [retryLoop]
  rw [h]

theorem retryLoop_err_cons (r r2 : AttemptResp τ) (rest : List (AttemptResp τ)) (e : String)
    (h : (processAttempt r).outcome = .error e) :
    retryLoop r (r2 :: rest) =
      ⟨(retryLoop r2 rest).result, (retryLoop r2 rest).attemptsUsed + 1,
        3 :: (retryLoop r2 rest).sleeps, (retryLoop r2 rest).finalErrorEdit,
        processAttempt r :: (retryLoop r2 rest).attempts⟩ := by
  simp only [retryLoop]
  rw [h]

end TgApiHitter

namespace TgApiHitter

variable {τ : Type} [LinearOrderedCommRing τ]

/-- A response declaring `Content-Length: 2_000_000_000`, above the
guard limit. -/
def tooLargeResp : AttemptResp Int := .good ⟨some 2000000000, 0, 30, [], none⟩

/-- C1 counterexample: a download whose responses all declare
`Content-Length = 2_000_000_000 > 1_990_000_000` is NOT failed without
consuming retries: the bare `except Exception` of the retry loop catches
the too-large `RuntimeError`, so all 3 attempts run, with two 3-second
sleeps between them, before the error propagates.  (No bytes are ever
written and the destination file is never opened, as the claim says.) -/
theorem C1_counterexample :
    (download_video_with_progress tooLargeResp tooLargeResp tooLargeResp).attemptsUsed = 3
    ∧ (download_video_with_progress tooLargeResp tooLargeResp tooLargeResp).sleeps = [3, 3]
    ∧ (download_video_with_progress tooLargeResp tooLargeResp tooLargeResp).result
      = .error "File too large for Telegram"
    ∧ (download_video_with_progress tooLargeResp tooLargeResp tooLargeResp).attempts.map
        (fun a => a.bytesWritten) = [0, 0, 0]
    ∧ ¬ ((download_video_with_progress tooLargeResp tooLargeResp tooLargeResp).attemptsUsed
      = 1 ∧ (download_video_with_progress tooLargeResp tooLargeResp tooLargeResp).sleeps
      = []) := by
  refine ⟨rfl, rfl, rfl, rfl, by decide⟩

/-- C1 (amended): whenever the HTTP response declares a Content-Length
above 1,990,000,000 bytes, each attempt aborts before opening or
writing the destination file, shows the too-large status edit and
raises the too-large error — but the failure IS retried like any other:
with such a response on every attempt, all 3 retry attempts are
consumed, with a 3-second sleep after each of the first two, and only
then does the too-large error propagate (after the generic
`❌ Video download error` edit). -/
theorem C1_corrected (r1 r2 r3 : OkResp τ)
    (h1 : SIZE_LIMIT < r1.contentLength.getD 0)
    (h2 : SIZE_LIMIT < r2.contentLength.getD 0)
    (h3 : SIZE_LIMIT < r3.contentLength.getD 0) :
    download_video_with_progress (.good r1) (.good r2) (.good r3) =
      ⟨.error "File too large for Telegram", 3, [3, 3],
        some "❌ Video download error: File too large for Telegram",
        [tooLargeResult, tooLargeResult, tooLargeResult]⟩ := by
  have e1 := processAttempt_tooLarge r1 h1
  have e2 := processAttempt_tooLarge r2 h2
  have e3 := processAttempt_tooLarge r3 h3
  have o1 : (processAttempt (.good r1)).outcome = .error "File too large for Telegram" := by
    rw [e1]; rfl
  have o2 : (processAttempt (.good r2)).outcome = .error "File too large for Telegram" := by
    rw [e2]; rfl
  have o3 : (processAttempt (.good r3)).outcome = .error "File too large for Telegram" := by
    rw [e3]; rfl
  unfold download_video_with_progress
  rw [retryLoop_err_cons _ _ _ _ o1, retryLoop_err_cons _ _ _ _ o2, retryLoop_err_nil _ _ o3,
    e1, e2, e3]
  rfl

/-- Witness for C1 (amended) at the concrete too-large response. -/
theorem C1_corrected_witness :
    SIZE_LIMIT < ((⟨some 2000000000, 0, 30, [], none⟩ : OkResp Int).contentLength.getD 0)
    ∧ download_video_with_progress (.good ⟨some 2000000000, 0, 30, [], none⟩)
        (.good ⟨some 2000000000, 0, 30, [], none⟩)
        (.good (⟨some 2000000000, 0, 30, [], none⟩ : OkResp Int)) =
      ⟨.error "File too large for Telegram", 3, [3, 3],
        some "❌ Video download error: File too large for Telegram",
        [tooLargeResult, tooLargeResult, tooLargeResult]⟩ :=
  ⟨by decide, C1_corrected _ _ _ (by decide) (by decide) (by decide)⟩

theorem runChunks_downloaded (total_size : Nat) (cs : List (Chunk τ)) :
    ∀ s : ProgState τ,
      (runChunks total_size s cs).downloaded = s.downloaded + (cs.map Chunk.size).sum := by
  induction cs with
  | nil => intro s; simp [runChunks]
  | cons c cs ih =>
    intro s
    have hstep : (stepChunk total_size s c).downloaded = s.downloaded + c.size := by
      unfold stepChunk
      split
      · simp [*]
      · split
        · split
          · split <;> rfl
          · rfl
        · rfl
    calc (runChunks total_size s (c :: cs)).downloaded
        = (runChunks total_size (stepChunk total_size s c) cs).downloaded := by
          simp [runChunks, List.foldl]
      _ = (stepChunk total_size s c).downloaded + (cs.map Chunk.size).sum := ih _
      _ = s.downloaded + (c.size + (cs.map Chunk.size).sum) := by rw [hstep]; omega
      _ = s.downloaded + ((c :: cs).map Chunk.size).sum := by simp

/-- C10: the ~1.99 GB guard applies only when the response declares a
Content-Length.  For every response without one, `total_size` is `0`,
the guard cannot fire, and the whole body — however large — is written
to the destination file: the attempt succeeds with `bytesWritten` equal
to the total size of the streamed chunks, and no too-large edit is ever
shown. -/
theorem C10_no_content_length_no_limit (r : OkResp τ)
    (hcl : r.contentLength = none) (hse : r.streamErr = none) :
    (processAttempt (.good r)).bytesWritten = (r.chunks.map Chunk.size).sum
    ∧ (processAttempt (.good r)).outcome = .ok ()
    ∧ (processAttempt (.good r)).tooLargeEditShown = false
    ∧ (processAttempt (.good r)).fileOpened = true := by
  have hguard : ¬ (r.contentLength.getD 0 ≠ 0 ∧ SIZE_LIMIT < r.contentLength.getD 0) := by
    rw [hcl]; simp
  simp only [processAttempt, if_neg hguard, hse]
  refine ⟨?_, by simp, by simp, by simp⟩
  rw [runChunks_downloaded]
  simp [initProg]

/-- Witness for C10: a response with no Content-Length streaming a
single 2,000,000,000-byte body (over the guard limit) is written in
full and succeeds. -/
theorem C10_no_content_length_no_limit_witness :
    (⟨none, 0, 30, [⟨2000000000, 1, 31⟩], none⟩ : OkResp Int).contentLength = none
    ∧ (⟨none, 0, 30, [⟨2000000000, 1, 31⟩], none⟩ : OkResp Int).streamErr = none
    ∧ ((processAttempt (.good (⟨none, 0, 30, [⟨2000000000, 1, 31⟩], none⟩ : OkResp Int))).bytesWritten
        = (([⟨2000000000, 1, 31⟩] : List (Chunk Int)).map Chunk.size).sum
      ∧ (processAttempt (.good (⟨none, 0, 30, [⟨2000000000, 1, 31⟩], none⟩ : OkResp Int))).outcome
        = .ok ()
      ∧ (processAttempt (.good (⟨none, 0, 30, [⟨2000000000, 1, 31⟩], none⟩ : OkResp Int))).tooLargeEditShown
        = false
      ∧ (processAttempt (.good (⟨none, 0, 30, [⟨2000000000, 1, 31⟩], none⟩ : OkResp Int))).fileOpened
        = true) :=
  ⟨rfl, rfl, C10_no_content_length_no_limit _ rfl rfl⟩

end TgApiHitter

namespace TgApiHitter

/-- JSON values, as returned by `resp.json(content_type=None)`
(`main.py` line 253). -/
inductive Json where
  | null
  | bool (b : Bool)
  | num (n : Int)
  | str (s : String)
  | arr (elems : List Json)
  | obj (fields : List (String × Json))

/-- Python truthiness of a JSON value: `None`, `False`, `0`, `""` and
empty containers are falsy. -/
def truthy : Json → Bool
  | .null => false
  | .bool b => b
  | .num n => n != 0
  | .str s => s != ""
  | .arr l => !l.isEmpty
  | .obj l => !l.isEmpty

/-- Python `dict.get(key)` on a JSON object, with `None` (`.null`) as
the default for a missing key. -/
def pyGet : List (String × Json) → String → Json
  | [], _ => .null
  | (k, v) :: rest, key => if k = key then v else pyGet rest key

/-- Python `key in dict`. -/
def hasKey : List (String × Json) → String → Bool
  | [], _ => false
  | (k, _) :: rest, key => if k = key then true else hasKey rest key

/-- The delay of `schedule_delete` (`main.py` line 98):
`Timer(24 * 60 * 60, ...)`, i.e. 24 hours in seconds. -/
def DELETE_DELAY_SECONDS : Nat := 24 * 60 * 60

variable (τ : Type)

/-- Everything observable `handle_message` (`main.py` lines 227-304)
does to its environment: the plain replies sent, whether the single
`⏳ Processing video...` status message was created, the edits made to
it by `handle_message` itself (the download loop's own edits are inside
`dl`), whether it was deleted, the temp-file lifecycle, whether the
download was invoked and its result, the deferred deletion scheduled by
`schedule_delete` as `(chat id, message id, delay in seconds)`, and any
exception escaping the handler. -/
structure HandleResult where
  replies : List String
  statusCreated : Bool
  statusEdits : List String
  statusDeleted : Bool
  tempFileCreated : Bool
  tempFileExists : Bool
  downloadInvoked : Bool
  dl : Option (DlResult τ)
  deletionScheduled : Option (Nat × Nat × Nat)
  uncaughtError : Option String

variable {τ}

/-- All-empty handler outcome, to be overridden per exit path. -/
def emptyHandle : HandleResult τ :=
  ⟨[], false, [], false, false, false, false, none, none, none⟩

variable [LinearOrderedCommRing τ]


/-- Handler `handle_message` (`main.py` lines 227-304) on a text link, driven by
oracles: `baseUrl` is the global `BASE_URL`; `apiResp` is the resolver
call outcome (transport error message, or the parsed JSON object);
`r1 r2 r3` feed the download attempts; `up` is the `reply_video`
outcome (the sent message id, or the error); `removeRaises` says
whether `os.remove` on the temp file raises.  Faithful to the source:

* falsy `BASE_URL` (unset or empty) → plain reply, no status message
  (lines 237-240);
* API transport/status error → `❌ API request error` edit (line 257);
* missing/falsy `success`, missing key `dlink`, or falsy `dlink` value
  → `❌ Failed to fetch video from API.` edit, before any temp file or
  download (lines 260-263);
* a truthy non-object `dlink` would make `d.get(...)` raise
  `AttributeError`, escaping the handler;
* missing/falsy inner `d["dlink"]` → `❌ API did not return a download
  link.` edit (lines 270-273);
* then the temp file is created, the download runs; on download failure
  the handler removes the file *outside any try/except* (lines 281-284)
  — if `os.remove` raises there, the exception escapes the handler;
* on download success, upload: success schedules deletion 24h out and
  deletes the status message (lines 292-294); failure edits
  `❌ Upload failed` (line 297); either way the `finally` block removes
  the temp file, swallowing any removal exception (lines 298-304). -/
def handle_message (baseUrl : Option String) (chatId : Nat)
    (apiResp : Except String (List (String × Json)))
    (r1 r2 r3 : AttemptResp τ) (up : Except String Nat)
    (removeRaises : Bool) : HandleResult τ :=
  if baseUrl.getD "" = "" then
    { emptyHandle with
      replies := ["❌ Base URL not set. Use /baseurl first."] }
  else
    match apiResp with
    | .error e =>
      { emptyHandle with
        statusCreated := true
        statusEdits := ["❌ API request error: " ++ e] }
    | .ok data =>
      if truthy (pyGet data "success") = false ∨ hasKey data "dlink" = false
          ∨ truthy (pyGet data "dlink") = false then
        { emptyHandle with
          statusCreated := true
          statusEdits := ["❌ Failed to fetch video from API."] }
      else
        match pyGet data "dlink" with
        | .obj d =>
          if truthy (pyGet d "dlink") = false then
            { emptyHandle with
              statusCreated := true
              statusEdits := ["❌ API did not return a download link."] }
          else
            let dlRes := download_video_with_progress r1 r2 r3
            match dlRes.result with
            | .error _ =>
              if removeRaises then
                { (emptyHandle : HandleResult τ) with
                  statusCreated := true
                  statusEdits := ["⏳ Downloading video..."]
                  tempFileCreated := true
                  tempFileExists := true
                  downloadInvoked := true
                  dl := some dlRes
                  uncaughtError := some "os.remove raised" }
              else
                { (emptyHandle : HandleResult τ) with
                  statusCreated := true
                  statusEdits := ["⏳ Downloading video..."]
                  tempFileCreated := true
                  tempFileExists := false
                  downloadInvoked := true
                  dl := some dlRes }
            | .ok _ =>
              match up with
              | .ok mid =>
                { replies := []
                  statusCreated := true
                  statusEdits := ["⏳ Downloading video...", "⏳ Uploading video..."]
                  statusDeleted := true
                  tempFileCreated := true
                  tempFileExists := removeRaises
                  downloadInvoked := true
                  dl := some dlRes
                  deletionScheduled := some (chatId, mid, DELETE_DELAY_SECONDS)
                  uncaughtError := none }
              | .error e =>
                { replies := []
                  statusCreated := true
                  statusEdits := ["⏳ Downloading video...", "⏳ Uploading video...",
                    "❌ Upload failed: " ++ e]
                  statusDeleted := false
                  tempFileCreated := true
                  tempFileExists := removeRaises
                  downloadInvoked := true
                  dl := some dlRes
                  deletionScheduled := none
                  uncaughtError := none }
        | _ =>
          { emptyHandle with
            statusCreated := true
            uncaughtError := some "AttributeError" }

end TgApiHitter

namespace TgApiHitter

variable {τ : Type} [LinearOrderedCommRing τ]

theorem handle_message_dl_err_noraise (burl : Option String) (chatId : Nat)
    (data d : List (String × Json)) (r1 r2 r3 : AttemptResp τ) (up : Except String Nat)
    (e : String)
    (hb : ¬ burl.getD "" = "")
    (hok : ¬ (truthy (pyGet data "success") = false ∨ hasKey data "dlink" = false
      ∨ truthy (pyGet data "dlink") = false))
    (hobj : pyGet data "dlink" = .obj d)
    (hd : truthy (pyGet d "dlink") = true)
    (hdl : (download_video_with_progress r1 r2 r3).result = .error e) :
    handle_message burl chatId (.ok data) r1 r2 r3 up false =
      ⟨[], true, ["⏳ Downloading video..."], false, true, false, true,
        some (download_video_with_progress r1 r2 r3), none, none⟩ := by
  simp only [not_or, Bool.not_eq_false] at hok
  rw [hobj] at hok
  simp only [handle_message, hobj, hdl, hb, hok.1, hok.2.1, hok.2.2, hd, emptyHandle]
  simp

theorem handle_message_dl_err_raise (burl : Option String) (chatId : Nat)
    (data d : List (String × Json)) (r1 r2 r3 : AttemptResp τ) (up : Except String Nat)
    (e : String)
    (hb : ¬ burl.getD "" = "")
    (hok : ¬ (truthy (pyGet data "success") = false ∨ hasKey data "dlink" = false
      ∨ truthy (pyGet data "dlink") = false))
    (hobj : pyGet data "dlink" = .obj d)
    (hd : truthy (pyGet d "dlink") = true)
    (hdl : (download_video_with_progress r1 r2 r3).result = .error e) :
    handle_message burl chatId (.ok data) r1 r2 r3 up true =
      ⟨[], true, ["⏳ Downloading video..."], false, true, true, true,
        some (download_video_with_progress r1 r2 r3), none, some "os.remove raised"⟩ := by
  simp only [not_or, Bool.not_eq_false] at hok
  rw [hobj] at hok
  simp only [handle_message, hobj, hdl, hb, hok.1, hok.2.1, hok.2.2, hd, emptyHandle]
  simp

theorem handle_message_up_ok (burl : Option String) (chatId : Nat)
    (data d : List (String × Json)) (r1 r2 r3 : AttemptResp τ) (mid : Nat)
    (rm : Bool)
    (hb : ¬ burl.getD "" = "")
    (hok : ¬ (truthy (pyGet data "success") = false ∨ hasKey data "dlink" = false
      ∨ truthy (pyGet data "dlink") = false))
    (hobj : pyGet data "dlink" = .obj d)
    (hd : truthy (pyGet d "dlink") = true)
    (hdl : (download_video_with_progress r1 r2 r3).result = .ok ()) :
    handle_message burl chatId (.ok data) r1 r2 r3 (.ok mid) rm =
      ⟨[], true, ["⏳ Downloading video...", "⏳ Uploading video..."], true, true, rm, true,
        some (download_video_with_progress r1 r2 r3),
        some (chatId, mid, DELETE_DELAY_SECONDS), none⟩ := by
  simp only [not_or, Bool.not_eq_false] at hok
  rw [hobj] at hok
  simp only [handle_message, hobj, hdl, hb, hok.1, hok.2.1, hok.2.2, hd, emptyHandle]
  simp

theorem handle_message_up_err (burl : Option String) (chatId : Nat)
    (data d : List (String × Json)) (r1 r2 r3 : AttemptResp τ) (e : String)
    (rm : Bool)
    (hb : ¬ burl.getD "" = "")
    (hok : ¬ (truthy (pyGet data "success") = false ∨ hasKey data "dlink" = false
      ∨ truthy (pyGet data "dlink") = false))
    (hobj : pyGet data "dlink" = .obj d)
    (hd : truthy (pyGet d "dlink") = true)
    (hdl : (download_video_with_progress r1 r2 r3).result = .ok ()) :
    handle_message burl chatId (.ok data) r1 r2 r3 (.error e) rm =
      ⟨[], true, ["⏳ Downloading video...", "⏳ Uploading video...", "❌ Upload failed: " ++ e],
        false, true, rm, true, some (download_video_with_progress r1 r2 r3), none, none⟩ := by
  simp only [not_or, Bool.not_eq_false] at hok
  rw [hobj] at hok
  simp only [handle_message, hobj, hdl, hb, hok.1, hok.2.1, hok.2.2, hd, emptyHandle]
  simp

end TgApiHitter

namespace TgApiHitter

variable {τ : Type} [LinearOrderedCommRing τ]

/-- C3: the retry policy of `download_video_with_progress` and its
caller.  At most 3 attempts run; the sleeps between consecutive
attempts are exactly a fixed 3 seconds each (one fewer than the
attempts used); each attempt's result is a function of that attempt's
response alone, starting from the reset counters
(`downloaded = 0`, `last_percent_edit = -1`, fresh edit window, byte 0);
any failure sequence of length ≤ 2 followed by a success yields overall
success; three consecutive failures yield the third error after the
`❌ Video download error` status edit; and on download failure the
caller `handle_message` removes the destination file (when `os.remove`
does not itself raise). -/
theorem C3_retry_policy (r1 r2 r3 : AttemptResp τ) :
    (download_video_with_progress r1 r2 r3).attemptsUsed ≤ 3
    ∧ (download_video_with_progress r1 r2 r3).sleeps
        = List.replicate ((download_video_with_progress r1 r2 r3).attemptsUsed - 1) 3
    ∧ (download_video_with_progress r1 r2 r3).attempts
        = ([r1, r2, r3].take (download_video_with_progress r1 r2 r3).attemptsUsed).map
            processAttempt
    ∧ (∀ t0 u0 : τ, initProg t0 u0 = ⟨0, -1, t0 + u0, []⟩)
    ∧ (∀ u, (processAttempt r1).outcome = .ok u →
        (download_video_with_progress r1 r2 r3).result = .ok ()
        ∧ (download_video_with_progress r1 r2 r3).attemptsUsed = 1)
    ∧ (∀ e1 u, (processAttempt r1).outcome = .error e1 →
        (processAttempt r2).outcome = .ok u →
        (download_video_with_progress r1 r2 r3).result = .ok ()
        ∧ (download_video_with_progress r1 r2 r3).attemptsUsed = 2)
    ∧ (∀ e1 e2 u, (processAttempt r1).outcome = .error e1 →
        (processAttempt r2).outcome = .error e2 →
        (processAttempt r3).outcome = .ok u →
        (download_video_with_progress r1 r2 r3).result = .ok ()
        ∧ (download_video_with_progress r1 r2 r3).attemptsUsed = 3)
    ∧ (∀ e1 e2 e3, (processAttempt r1).outcome = .error e1 →
        (processAttempt r2).outcome = .error e2 →
        (processAttempt r3).outcome = .error e3 →
        (download_video_with_progress r1 r2 r3).result = .error e3
        ∧ (download_video_with_progress r1 r2 r3).attemptsUsed = 3
        ∧ (download_video_with_progress r1 r2 r3).finalErrorEdit
            = some ("❌ Video download error: " ++ e3))
    ∧ (∀ (burl : Option String) (chatId : Nat) (data dd : List (String × Json))
        (up : Except String Nat) (e : String),
        ¬ burl.getD "" = "" →
        ¬ (truthy (pyGet data "success") = false ∨ hasKey data "dlink" = false
          ∨ truthy (pyGet data "dlink") = false) →
        pyGet data "dlink" = .obj dd →
        truthy (pyGet dd "dlink") = true →
        (download_video_with_progress r1 r2 r3).result = .error e →
        (handle_message burl chatId (.ok data) r1 r2 r3 up false).tempFileExists = false) := by
  rcases h1 : (processAttempt r1).outcome with e1 | u1
  · rcases h2 : (processAttempt r2).outcome with e2 | u2
    · rcases h3 : (processAttempt r3).outcome with e3 | u3
      · -- three consecutive failures
        have hd : download_video_with_progress r1 r2 r3 =
            ⟨.error e3, 3, [3, 3], some ("❌ Video download error: " ++ e3),
              [processAttempt r1, processAttempt r2, processAttempt r3]⟩ := by
          unfold download_video_with_progress
          rw [retryLoop_err_cons _ _ _ _ h1, retryLoop_err_cons _ _ _ _ h2,
            retryLoop_err_nil _ _ h3]
        rw [hd]
        refine ⟨by norm_num, rfl, rfl, fun t0 u0 => rfl, ?_, ?_, ?_, ?_, ?_⟩
        · intro u hu; exact absurd hu (by simp)
        · intro e1' u k1 k2; exact absurd k2 (by simp)
        · intro e1' e2' u k1 k2 k3; exact absurd k3 (by simp)
        · intro e1' e2' e3' k1 k2 k3
          injection k3 with hk
          subst hk
          exact ⟨rfl, rfl, rfl⟩
        · intro burl chatId data dd up e hb' hok' hobj' hdt' hres
          rw [handle_message_dl_err_noraise burl chatId data dd r1 r2 r3 up e hb' hok' hobj'
            hdt' (by rw [hd]; exact hres)]
      · -- two failures then success
        have hd : download_video_with_progress r1 r2 r3 =
            ⟨.ok (), 3, [3, 3], none,
              [processAttempt r1, processAttempt r2, processAttempt r3]⟩ := by
          unfold download_video_with_progress
          rw [retryLoop_err_cons _ _ _ _ h1, retryLoop_err_cons _ _ _ _ h2,
            retryLoop_ok _ _ _ h3]
        rw [hd]
        refine ⟨by norm_num, rfl, rfl, fun t0 u0 => rfl, ?_, ?_, ?_, ?_, ?_⟩
        · intro u hu; exact absurd hu (by simp)
        · intro e1' u k1 k2; exact absurd k2 (by simp)
        · intro e1' e2' u k1 k2 k3; exact ⟨rfl, rfl⟩
        · intro e1' e2' e3' k1 k2 k3; exact absurd k3 (by simp)
        · intro burl chatId data dd up e hb' hok' hobj' hdt' hres
          exact absurd hres (by simp)
    · -- one failure then success
      have hd : download_video_with_progress r1 r2 r3 =
          ⟨.ok (), 2, [3], none, [processAttempt r1, processAttempt r2]⟩ := by
        unfold download_video_with_progress
        rw [retryLoop_err_cons _ _ _ _ h1, retryLoop_ok _ _ _ h2]
      rw [hd]
      refine ⟨by norm_num, rfl, rfl, fun t0 u0 => rfl, ?_, ?_, ?_, ?_, ?_⟩
      · intro u hu; exact absurd hu (by simp)
      · intro e1' u k1 k2; exact ⟨rfl, rfl⟩
      · intro e1' e2' u k1 k2 k3; exact absurd k2 (by simp)
      · intro e1' e2' e3' k1 k2 k3; exact absurd k2 (by simp)
      · intro burl chatId data dd up e hb' hok' hobj' hdt' hres
        exact absurd hres (by simp)
  · -- immediate success
    have hd : download_video_with_progress r1 r2 r3 =
        ⟨.ok (), 1, [], none, [processAttempt r1]⟩ := by
      unfold download_video_with_progress
      rw [retryLoop_ok _ _ _ h1]
    rw [hd]
    refine ⟨by norm_num, rfl, rfl, fun t0 u0 => rfl, ?_, ?_, ?_, ?_, ?_⟩
    · intro u hu; exact ⟨rfl, rfl⟩
    · intro e1' u k1 k2; exact absurd k1 (by simp)
    · intro e1' e2' u k1 k2 k3; exact absurd k1 (by simp)
    · intro e1' e2' e3' k1 k2 k3; exact absurd k1 (by simp)
    · intro burl chatId data dd up e hb' hok' hobj' hdt' hres
      exact absurd hres (by simp)

/-- A transport failure, for witnesses. -/
def failResp : AttemptResp Int := .fail "boom"

/-- A small successful response: Content-Length 100, one 100-byte
chunk arriving before the first edit window. -/
def okRespSmall : AttemptResp Int := .good ⟨some 100, 0, 30, [⟨100, 1, 30⟩], none⟩

/-- Witness for C3 at a failure followed by a success: the second
attempt succeeds, two attempts are used, one 3-second sleep happens. -/
theorem C3_retry_policy_witness :
    (processAttempt failResp).outcome = .error "boom"
    ∧ (processAttempt okRespSmall).outcome = .ok ()
    ∧ ((download_video_with_progress failResp okRespSmall failResp).result = .ok ()
      ∧ (download_video_with_progress failResp okRespSmall failResp).attemptsUsed = 2) :=
  ⟨rfl, rfl,
    (C3_retry_policy failResp okRespSmall failResp).2.2.2.2.2.1 "boom" () rfl rfl⟩

end TgApiHitter

namespace TgApiHitter

variable {τ : Type} [LinearOrderedCommRing τ]

/-- C7: when the resolver's JSON object has a false or absent top-level
`success` flag, or no `dlink` member, the status message is edited to
exactly `❌ Failed to fetch video from API.`, the download is never
invoked, and no temporary file is created. -/
theorem C7_api_failure (burl : Option String) (chatId : Nat)
    (data : List (String × Json)) (r1 r2 r3 : AttemptResp τ) (up : Except String Nat)
    (rm : Bool)
    (hb : ¬ burl.getD "" = "")
    (hcond : truthy (pyGet data "success") = false ∨ hasKey data "dlink" = false) :
    (handle_message burl chatId (.ok data) r1 r2 r3 up rm).statusEdits
        = ["❌ Failed to fetch video from API."]
    ∧ (handle_message burl chatId (.ok data) r1 r2 r3 up rm).downloadInvoked = false
    ∧ (handle_message burl chatId (.ok data) r1 r2 r3 up rm).tempFileCreated = false
    ∧ (handle_message burl chatId (.ok data) r1 r2 r3 up rm).dl = none := by
  have hcond' : truthy (pyGet data "success") = false ∨ hasKey data "dlink" = false
      ∨ truthy (pyGet data "dlink") = false := by
    rcases hcond with h | h
    · exact Or.inl h
    · exact Or.inr (Or.inl h)
  simp only [handle_message, hb, hcond', emptyHandle]
  simp

/-- Witness for C7 at a concrete `{success: false}` response. -/
theorem C7_api_failure_witness :
    (¬ (some "http://x" : Option String).getD "" = "")
    ∧ truthy (pyGet [("success", Json.bool false)] "success") = false
    ∧ ((handle_message (some "http://x") 1 (.ok [("success", Json.bool false)])
          failResp failResp failResp (.ok 1) false).statusEdits
        = ["❌ Failed to fetch video from API."]
      ∧ (handle_message (some "http://x") 1 (.ok [("success", Json.bool false)])
          failResp failResp failResp (.ok 1) false).downloadInvoked = false
      ∧ (handle_message (some "http://x") 1 (.ok [("success", Json.bool false)])
          failResp failResp failResp (.ok 1) false).tempFileCreated = false
      ∧ (handle_message (some "http://x") 1 (.ok [("success", Json.bool false)])
          failResp failResp failResp (.ok 1) false).dl = none) :=
  ⟨by decide, rfl,
    C7_api_failure (some "http://x") 1 [("success", Json.bool false)]
      failResp failResp failResp (.ok 1) false (by decide) (Or.inl rfl)⟩

/-- C8: after the media message is sent — download having succeeded —
an upload success schedules deletion of the sent message 24 hours
(86400 seconds) out and deletes (does not merely edit) the status
message, whose last edit remains `⏳ Uploading video...`; an upload
failure edits the status message to `❌ Upload failed:` followed by the
cause and schedules no deletion. -/
theorem C8_upload_outcome (burl : Option String) (chatId : Nat)
    (data d : List (String × Json)) (r1 r2 r3 : AttemptResp τ) (rm : Bool)
    (mid : Nat) (e : String)
    (hb : ¬ burl.getD "" = "")
    (hok : ¬ (truthy (pyGet data "success") = false ∨ hasKey data "dlink" = false
      ∨ truthy (pyGet data "dlink") = false))
    (hobj : pyGet data "dlink" = .obj d)
    (hd : truthy (pyGet d "dlink") = true)
    (hdl : (download_video_with_progress r1 r2 r3).result = .ok ()) :
    ((handle_message burl chatId (.ok data) r1 r2 r3 (.ok mid) rm).deletionScheduled
        = some (chatId, mid, 24 * 60 * 60)
      ∧ (handle_message burl chatId (.ok data) r1 r2 r3 (.ok mid) rm).statusDeleted = true
      ∧ (handle_message burl chatId (.ok data) r1 r2 r3 (.ok mid) rm).statusEdits
        = ["⏳ Downloading video...", "⏳ Uploading video..."])
    ∧ ((handle_message burl chatId (.ok data) r1 r2 r3 (.error e) rm).statusEdits
        = ["⏳ Downloading video...", "⏳ Uploading video...", "❌ Upload failed: " ++ e]
      ∧ (handle_message burl chatId (.ok data) r1 r2 r3 (.error e) rm).deletionScheduled
        = none
      ∧ (handle_message burl chatId (.ok data) r1 r2 r3 (.error e) rm).statusDeleted
        = false) := by
  constructor
  · rw [handle_message_up_ok burl chatId data d r1 r2 r3 mid rm hb hok hobj hd hdl]
    exact ⟨rfl, rfl, rfl⟩
  · rw [handle_message_up_err burl chatId data d r1 r2 r3 e rm hb hok hobj hd hdl]
    exact ⟨rfl, rfl, rfl⟩

/-- The inner `dlink` object of a well-formed resolver response, for
witnesses. -/
def apiOkDlink : List (String × Json) := [("dlink", Json.str "http://cdn/v.mp4")]

/-- A well-formed resolver response: `success` true and a usable
`dlink` object. -/
def apiOkData : List (String × Json) :=
  [("success", Json.bool true), ("dlink", Json.obj apiOkDlink)]

/-- Witness for C8 at a concrete successful pipeline (message id 42,
upload failure cause `cap`). -/
theorem C8_upload_outcome_witness :
    (¬ (some "http://x" : Option String).getD "" = "")
    ∧ (download_video_with_progress okRespSmall okRespSmall okRespSmall).result = .ok ()
    ∧ (((handle_message (some "http://x") 5 (.ok apiOkData) okRespSmall okRespSmall
          okRespSmall (.ok 42) false).deletionScheduled = some (5, 42, 24 * 60 * 60)
      ∧ (handle_message (some "http://x") 5 (.ok apiOkData) okRespSmall okRespSmall
          okRespSmall (.ok 42) false).statusDeleted = true
      ∧ (handle_message (some "http://x") 5 (.ok apiOkData) okRespSmall okRespSmall
          okRespSmall (.ok 42) false).statusEdits
        = ["⏳ Downloading video...", "⏳ Uploading video..."])
    ∧ ((handle_message (some "http://x") 5 (.ok apiOkData) okRespSmall okRespSmall
          okRespSmall (.error "cap") false).statusEdits
        = ["⏳ Downloading video...", "⏳ Uploading video...", "❌ Upload failed: " ++ "cap"]
      ∧ (handle_message (some "http://x") 5 (.ok apiOkData) okRespSmall okRespSmall
          okRespSmall (.error "cap") false).deletionScheduled = none
      ∧ (handle_message (some "http://x") 5 (.ok apiOkData) okRespSmall okRespSmall
          okRespSmall (.error "cap") false).statusDeleted = false)) :=
  ⟨by decide, rfl,
    C8_upload_outcome (some "http://x") 5 apiOkData apiOkDlink okRespSmall okRespSmall
      okRespSmall false 42 "cap" (by decide) (by decide) rfl rfl rfl⟩

end TgApiHitter

namespace TgApiHitter

variable {τ : Type} [LinearOrderedCommRing τ]

/-- C5 counterexample: cleanup exceptions are NOT swallowed on every
exit path.  On the download-failure path (`main.py` lines 281-284) the
`os.remove` call is outside any try/except, so when it raises, the
exception escapes the handler — here with the resolver succeeding, all
three download attempts failing, and `os.remove` raising, the handler
ends with an uncaught error and the temp file still present. -/
theorem C5_counterexample :
    (handle_message (some "http://x") 1 (.ok apiOkData) failResp failResp failResp
      (.ok 1) true).uncaughtError = some "os.remove raised"
    ∧ (handle_message (some "http://x") 1 (.ok apiOkData) failResp failResp failResp
      (.ok 1) true).tempFileExists = true :=
  ⟨rfl, rfl⟩

/-- C5 (amended): the handler attempts to remove the temporary file on
all three exit paths (upload success, upload failure, download
failure), and when `os.remove` does not raise, the file is gone and
nothing escapes.  When `os.remove` raises, the upload paths (success
and failure) swallow the exception in the `finally` block and the
primary outcome — status edits, status deletion, scheduled deletion —
is unchanged; but on the download-failure path the removal is
unguarded, and the exception escapes the handler. -/
theorem C5_corrected (burl : Option String) (chatId : Nat)
    (data d : List (String × Json)) (r1 r2 r3 : AttemptResp τ) (up : Except String Nat)
    (hb : ¬ burl.getD "" = "")
    (hok : ¬ (truthy (pyGet data "success") = false ∨ hasKey data "dlink" = false
      ∨ truthy (pyGet data "dlink") = false))
    (hobj : pyGet data "dlink" = .obj d)
    (hd : truthy (pyGet d "dlink") = true) :
    ((handle_message burl chatId (.ok data) r1 r2 r3 up false).tempFileCreated = true
      ∧ (handle_message burl chatId (.ok data) r1 r2 r3 up false).tempFileExists = false
      ∧ (handle_message burl chatId (.ok data) r1 r2 r3 up false).uncaughtError = none)
    ∧ ((download_video_with_progress r1 r2 r3).result = .ok () →
        (handle_message burl chatId (.ok data) r1 r2 r3 up true).uncaughtError = none
        ∧ (handle_message burl chatId (.ok data) r1 r2 r3 up true).statusEdits
          = (handle_message burl chatId (.ok data) r1 r2 r3 up false).statusEdits
        ∧ (handle_message burl chatId (.ok data) r1 r2 r3 up true).statusDeleted
          = (handle_message burl chatId (.ok data) r1 r2 r3 up false).statusDeleted
        ∧ (handle_message burl chatId (.ok data) r1 r2 r3 up true).deletionScheduled
          = (handle_message burl chatId (.ok data) r1 r2 r3 up false).deletionScheduled)
    ∧ (∀ e, (download_video_with_progress r1 r2 r3).result = .error e →
        (handle_message burl chatId (.ok data) r1 r2 r3 up true).uncaughtError
          = some "os.remove raised") := by
  rcases hres : (download_video_with_progress r1 r2 r3).result with e | u
  · have hf := handle_message_dl_err_noraise burl chatId data d r1 r2 r3 up e hb hok hobj hd hres
    have ht := handle_message_dl_err_raise burl chatId data d r1 r2 r3 up e hb hok hobj hd hres
    refine ⟨?_, ?_, ?_⟩
    · rw [hf]; exact ⟨rfl, rfl, rfl⟩
    · intro hcontra; exact absurd hcontra (by simp)
    · intro e' he'
      rw [ht]
  · cases u
    cases up with
    | ok mid =>
      have hf := handle_message_up_ok burl chatId data d r1 r2 r3 mid false hb hok hobj hd hres
      have ht := handle_message_up_ok burl chatId data d r1 r2 r3 mid true hb hok hobj hd hres
      refine ⟨?_, ?_, ?_⟩
      · rw [hf]; exact ⟨rfl, rfl, rfl⟩
      · intro hok2; rw [hf, ht]; exact ⟨rfl, rfl, rfl, rfl⟩
      · intro e' he'; exact absurd he' (by simp)
    | error eu =>
      have hf := handle_message_up_err burl chatId data d r1 r2 r3 eu false hb hok hobj hd hres
      have ht := handle_message_up_err burl chatId data d r1 r2 r3 eu true hb hok hobj hd hres
      refine ⟨?_, ?_, ?_⟩
      · rw [hf]; exact ⟨rfl, rfl, rfl⟩
      · intro hok2; rw [hf, ht]; exact ⟨rfl, rfl, rfl, rfl⟩
      · intro e' he'; exact absurd he' (by simp)

end TgApiHitter

namespace TgApiHitter

/-- Witness for C5 (amended) at a concrete request: resolver succeeds,
downloads succeed, upload returns message 9 in chat 7. -/
theorem C5_corrected_witness :
    (¬ (some "http://x" : Option String).getD "" = "")
    ∧ truthy (pyGet apiOkDlink "dlink") = true
    ∧ (((handle_message (some "http://x") 7 (.ok apiOkData) okRespSmall okRespSmall
          okRespSmall (.ok 9) false).tempFileCreated = true
      ∧ (handle_message (some "http://x") 7 (.ok apiOkData) okRespSmall okRespSmall
          okRespSmall (.ok 9) false).tempFileExists = false
      ∧ (handle_message (some "http://x") 7 (.ok apiOkData) okRespSmall okRespSmall
          okRespSmall (.ok 9) false).uncaughtError = none)
    ∧ ((download_video_with_progress okRespSmall okRespSmall okRespSmall).result = .ok () →
        (handle_message (some "http://x") 7 (.ok apiOkData) okRespSmall okRespSmall
          okRespSmall (.ok 9) true).uncaughtError = none
        ∧ (handle_message (some "http://x") 7 (.ok apiOkData) okRespSmall okRespSmall
            okRespSmall (.ok 9) true).statusEdits
          = (handle_message (some "http://x") 7 (.ok apiOkData) okRespSmall okRespSmall
            okRespSmall (.ok 9) false).statusEdits
        ∧ (handle_message (some "http://x") 7 (.ok apiOkData) okRespSmall okRespSmall
            okRespSmall (.ok 9) true).statusDeleted
          = (handle_message (some "http://x") 7 (.ok apiOkData) okRespSmall okRespSmall
            okRespSmall (.ok 9) false).statusDeleted
        ∧ (handle_message (some "http://x") 7 (.ok apiOkData) okRespSmall okRespSmall
            okRespSmall (.ok 9) true).deletionScheduled
          = (handle_message (some "http://x") 7 (.ok apiOkData) okRespSmall okRespSmall
            okRespSmall (.ok 9) false).deletionScheduled)
    ∧ (∀ e, (download_video_with_progress okRespSmall okRespSmall okRespSmall).result
          = .error e →
        (handle_message (some "http://x") 7 (.ok apiOkData) okRespSmall okRespSmall
          okRespSmall (.ok 9) true).uncaughtError = some "os.remove raised")) :=
  ⟨by decide, rfl,
    C5_corrected (some "http://x") 7 apiOkData apiOkDlink okRespSmall okRespSmall
      okRespSmall (.ok 9) (by decide) (by decide) rfl rfl⟩

end TgApiHitter

namespace TgApiHitter

variable {τ : Type} [LinearOrderedCommRing τ]

/-- Loop time at which a progress edit was made. -/
def editTime : Edit τ → τ
  | .percent _ t => t
  | .bytes _ t => t

/-- The number reported by a progress edit: the percentage when total
size is known, the cumulative byte count otherwise. -/
def editNum : Edit τ → Nat
  | .percent p _ => p
  | .bytes n _ => n

/-- Which edit kind a given total size produces. -/
def editOk (total_size : Nat) : Edit τ → Prop
  | .percent _ _ => 0 < total_size
  | .bytes _ _ => total_size = 0

/-- Relation between the most recent edit and the live counters. -/
def headOk (s : ProgState τ) : Edit τ → Prop
  | .percent p _ => (p : Int) = s.last_percent_edit
  | .bytes n _ => n ≤ s.downloaded

/-- Invariant of the chunk loop: the last edited percentage never
exceeds the current percentage; every recorded edit matches the edit
kind for this total size; the most recent edit is at least 30 time
units older than the next allowed edit time and agrees with the
counters; and the recorded edits (most recent first) decrease strictly
in reported number and by at least 30 time units per step. -/
def ProgInv (total_size : Nat) (s : ProgState τ) : Prop :=
  s.last_percent_edit ≤ ((s.downloaded * 100 / total_size : Nat) : Int)
  ∧ (∀ e ∈ s.editsRev, editOk total_size e)
  ∧ (∀ e, s.editsRev.head? = some e → editTime e + 30 ≤ s.next_edit_at ∧ headOk s e)
  ∧ s.editsRev.Chain' (fun a b => editTime b + 30 ≤ editTime a ∧ editNum b < editNum a)

theorem progInv_init (total_size : Nat) (t0 u0 : τ) :
    ProgInv total_size (initProg t0 u0) := by
  refine ⟨by simp [initProg], by simp [initProg], ?_, by simp [initProg]⟩
  intro e he
  simp [initProg] at he

theorem progInv_step (total_size : Nat) (s : ProgState τ) (c : Chunk τ)
    (hu : (30 : τ) ≤ c.u) (h : ProgInv total_size s) :
    ProgInv total_size (stepChunk total_size s c) := by
  obtain ⟨hA, hB, hC, hD⟩ := h
  have hmono : ((s.downloaded * 100 / total_size : Nat) : Int)
      ≤ (((s.downloaded + c.size) * 100 / total_size : Nat) : Int) := by
    exact_mod_cast Nat.div_le_div_right
      (mul_le_mul_right' (Nat.le_add_right s.downloaded c.size) 100)
  have hu0 : (0 : τ) ≤ c.u := le_trans (by norm_num) hu
  unfold stepChunk
  by_cases hsz : c.size = 0
  · rw [if_pos hsz]; exact ⟨hA, hB, hC, hD⟩
  · rw [if_neg hsz]
    by_cases hw : s.next_edit_at ≤ c.now
    · rw [if_pos hw]
      by_cases htot : 0 < total_size
      · rw [if_pos htot]
        by_cases hne : ((((s.downloaded + c.size) * 100 / total_size : Nat) : Int)
            ≠ s.last_percent_edit)
        · rw [if_pos hne]
          have hlt : s.last_percent_edit
              < (((s.downloaded + c.size) * 100 / total_size : Nat) : Int) :=
            lt_of_le_of_ne (le_trans hA hmono) (Ne.symm hne)
          refine ⟨le_refl _, ?_, ?_, ?_⟩
          · intro e he
            rcases List.mem_cons.mp he with rfl | he'
            · exact htot
            · exact hB e he'
          · intro e he
            rw [List.head?_cons, Option.some_inj] at he
            subst he
            refine ⟨add_le_add_left hu c.now, rfl⟩
          · cases hrev : s.editsRev with
            | nil => simp
            | cons e0 rest =>
              rw [List.chain'_cons]
              obtain ⟨ht0, hh0⟩ := hC e0 (by rw [hrev]; rfl)
              constructor
              · constructor
                · exact le_trans ht0 hw
                · cases e0 with
                  | percent p0 tp0 =>
                    have : (p0 : Int) = s.last_percent_edit := hh0
                    have hp0 : (p0 : Int)
                        < (((s.downloaded + c.size) * 100 / total_size : Nat) : Int) :=
                      this ▸ hlt
                    exact_mod_cast hp0
                  | bytes n0 tb0 =>
                    have h0 : total_size = 0 :=
                      hB (Edit.bytes n0 tb0) (by rw [hrev]; exact List.mem_cons_self _ _)
                    omega
              · rw [← hrev]; exact hD
        · rw [if_neg hne]
          refine ⟨le_trans hA hmono, hB, ?_, hD⟩
          intro e he
          obtain ⟨h1, h2⟩ := hC e he
          refine ⟨le_trans h1 (le_trans hw (le_add_of_nonneg_right hu0)), ?_⟩
          cases e with
          | percent p0 tp0 => exact h2
          | bytes n0 tb0 => exact le_trans h2 (Nat.le_add_right _ _)
      · rw [if_neg htot]
        have htot0 : total_size = 0 := by omega
        subst htot0
        refine ⟨?_, ?_, ?_, ?_⟩
        · simpa using hA
        · intro e he
          rcases List.mem_cons.mp he with rfl | he'
          · rfl
          · exact hB e he'
        · intro e he
          rw [List.head?_cons, Option.some_inj] at he
          subst he
          exact ⟨add_le_add_left hu c.now, le_refl _⟩
        · cases hrev : s.editsRev with
          | nil => simp
          | cons e0 rest =>
            rw [List.chain'_cons]
            obtain ⟨ht0, hh0⟩ := hC e0 (by rw [hrev]; rfl)
            constructor
            · constructor
              · exact le_trans ht0 hw
              · cases e0 with
                | percent p0 tp0 =>
                  have h0 : (0 : Nat) < 0 :=
                    hB (Edit.percent p0 tp0) (by rw [hrev]; exact List.mem_cons_self _ _)
                  omega
                | bytes n0 tb0 =>
                  have hn0 : n0 ≤ s.downloaded := hh0
                  have hpos : 0 < c.size := Nat.pos_of_ne_zero hsz
                  show n0 < s.downloaded + c.size
                  omega
            · rw [← hrev]; exact hD
    · rw [if_neg hw]
      refine ⟨le_trans hA hmono, hB, ?_, hD⟩
      intro e he
      obtain ⟨h1, h2⟩ := hC e he
      refine ⟨h1, ?_⟩
      cases e with
      | percent p0 tp0 => exact h2
      | bytes n0 tb0 => exact le_trans h2 (Nat.le_add_right _ _)

theorem progInv_run (total_size : Nat) (cs : List (Chunk τ)) :
    ∀ s : ProgState τ, (∀ c ∈ cs, (30 : τ) ≤ c.u) → ProgInv total_size s →
      ProgInv total_size (runChunks total_size s cs) := by
  induction cs with
  | nil => intro s hcs h; exact h
  | cons c cs ih =>
    intro s hcs h
    have hstep := progInv_step total_size s c (hcs c (List.mem_cons_self _ _)) h
    have : runChunks total_size s (c :: cs) = runChunks total_size (stepChunk total_size s c) cs := rfl
    rw [this]
    exact ih _ (fun c2 hc2 => hcs c2 (List.mem_cons_of_mem _ hc2)) hstep

end TgApiHitter

namespace TgApiHitter

variable {τ : Type} [LinearOrderedCommRing τ]

/-- C6: within a single download attempt, provided every
`random.uniform(30, 35)` draw lies in `[30, 35]`, consecutive progress
edits are separated by at least 30 time units (the lower bound of the
drawn interval) and carry strictly increasing numbers — so, with known
total size, the reported percentages are non-decreasing and never
repeat consecutively; moreover with known total size every edit reports
a percentage, and with unknown total size every edit reports the
cumulative byte count instead, on the same time cadence. -/
theorem C6_progress_throttle (r : OkResp τ)
    (hu : ∀ c ∈ r.chunks, (30 : τ) ≤ c.u ∧ c.u ≤ 35) :
    ((processAttempt (.good r)).edits).Chain'
      (fun a b => editTime a + 30 ≤ editTime b ∧ editNum a < editNum b)
    ∧ (0 < r.contentLength.getD 0 →
        ∀ e ∈ (processAttempt (.good r)).edits, ∃ p t, e = Edit.percent p t)
    ∧ (r.contentLength.getD 0 = 0 →
        ∀ e ∈ (processAttempt (.good r)).edits, ∃ n t, e = Edit.bytes n t) := by
  by_cases hguard : (r.contentLength.getD 0 ≠ 0 ∧ SIZE_LIMIT < r.contentLength.getD 0)
  · have hnil : (processAttempt (.good r)).edits = [] := by
      simp [processAttempt, hguard]
    rw [hnil]
    exact ⟨List.chain'_nil, fun _ e he => absurd he (List.not_mem_nil e),
      fun _ e he => absurd he (List.not_mem_nil e)⟩
  · obtain ⟨hA, hB, hC, hD⟩ := progInv_run (r.contentLength.getD 0) r.chunks
      (initProg r.t0 r.u0) (fun c hc => (hu c hc).1) (progInv_init _ r.t0 r.u0)
    have hedits : (processAttempt (.good r)).edits
        = (runChunks (r.contentLength.getD 0) (initProg r.t0 r.u0) r.chunks).editsRev.reverse := by
      cases hse : r.streamErr <;> simp [processAttempt, hguard, hse]
    rw [hedits]
    refine ⟨?_, ?_, ?_⟩
    · rw [List.chain'_reverse]
      exact hD
    · intro htot e he
      rw [List.mem_reverse] at he
      have h1 := hB e he
      cases e with
      | percent p t => exact ⟨p, t, rfl⟩
      | bytes n t =>
        have h0 : r.contentLength.getD 0 = 0 := h1
        omega
    · intro htot e he
      rw [List.mem_reverse] at he
      have h1 := hB e he
      cases e with
      | percent p t =>
        have h0 : 0 < r.contentLength.getD 0 := h1
        omega
      | bytes n t => exact ⟨n, t, rfl⟩

/-- A concrete attempt for the C6 witness: total size 200, two
100-byte chunks, each arriving after the pending edit window. -/
def c6resp : OkResp Int := ⟨some 200, 0, 30, [⟨100, 40, 30⟩, ⟨100, 75, 31⟩], none⟩

/-- Witness for C6: on `c6resp` the loop edits 50% at time 40 and 100%
at time 75, and the throttle/monotonicity conclusions hold. -/
theorem C6_progress_throttle_witness :
    (∀ c ∈ c6resp.chunks, (30 : Int) ≤ c.u ∧ c.u ≤ 35)
    ∧ (processAttempt (.good c6resp)).edits = [Edit.percent 50 40, Edit.percent 100 75]
    ∧ (((processAttempt (.good c6resp)).edits).Chain'
        (fun a b => editTime a + 30 ≤ editTime b ∧ editNum a < editNum b)
      ∧ (0 < c6resp.contentLength.getD 0 →
          ∀ e ∈ (processAttempt (.good c6resp)).edits, ∃ p t, e = Edit.percent p t)
      ∧ (c6resp.contentLength.getD 0 = 0 →
          ∀ e ∈ (processAttempt (.good c6resp)).edits, ∃ n t, e = Edit.bytes n t)) :=
  ⟨by decide, rfl, C6_progress_throttle c6resp (by decide)⟩

end TgApiHitter
